import Mathlib

/-!
Verification of the wandr-backend pipeline orchestration layer.

Shallow embedding of the Python sources:
  - `pipeline/orchestrator.py`  (mode resolution, single-URL run, batch runner)
  - `pipeline/commands.py`      (ProcessVideoCommand, ExtractLocationCommand,
                                 CreateNotionEntryCommand)
  - `services/video_processor/main.py`   (TikTokProcessor.process_with_data_return)
  - `services/location_processor/main.py` (LocationProcessor place filtering)
  - `services/notion_service/location_handler.py` (duplicate suppression)

Python dynamic values are modelled explicitly: `None`-able strings become
`Option String`, Python truthiness becomes the `truthy`/`truthyOpt` helpers,
`str.strip()` becomes `pyStrip`, and dictionary `.get` on association lists
becomes `pyGet`.  Fallible calls to external collaborators are supplied as
oracle inputs (their outcomes are parameters of the embedded functions).
-/

namespace Wandr

/-- Python truthiness of a string: `""` is falsy, everything else truthy. -/
def truthy (s : String) : Bool := s ≠ ""

/-- Python truthiness of an `Optional[str]`: `None` and `""` are falsy. -/
def truthyOpt : Option String → Bool
  | none => false
  | some s => truthy s

/-- Model of Python `str.lower()`: lowercase every character. -/
def pyLower (s : String) : String := ⟨s.data.map Char.toLower⟩

/-- Model of Python `str.strip()`: drop whitespace from both ends. -/
def pyStrip (s : String) : String :=
  ⟨((s.data.dropWhile Char.isWhitespace).reverse.dropWhile Char.isWhitespace).reverse⟩

/-- Model of Python `dict.get(key)` over an association list: first binding wins,
`None` when absent. -/
def pyGet (d : List (String × String)) (k : String) : Option String :=
  (d.find? (fun p => p.1 = k)).map (·.2)

/-- Modelled from the spec: the `ProcessingMode` enumeration is imported by the
orchestrator from `models.pipeline_models`, a module whose definition of this
enum is not present under `src/`; spec section 3 fixes the closed member set
`Full`, `MetadataOnly`, `AudioOnly`, `Carousel`. -/
inductive ProcessingMode where
  | FULL
  | METADATA_ONLY
  | AUDIO_ONLY
  | CAROUSEL
deriving DecidableEq, Repr

/-- `ProcessingStatus` from `models/pipeline_models.py`; the source member
`PARTIAL` is rendered `PARTIAL_RESULT`. -/
inductive ProcessingStatus where
  | SUCCESS
  | FAILED
  | PARTIAL_RESULT
deriving DecidableEq, Repr

/-- `PipelineOrchestrator.TAG_TO_MODE` from `pipeline/orchestrator.py`. -/
def TAG_TO_MODE : List (String × ProcessingMode) :=
  [("metadata-only", ProcessingMode.METADATA_ONLY),
   ("audio-only", ProcessingMode.AUDIO_ONLY),
   ("carousel", ProcessingMode.CAROUSEL)]

/-- `PipelineOrchestrator._determine_processing_mode` from
`pipeline/orchestrator.py` lines 40-47.  The Python function returns
`ProcessingMode.FULL` when the tag is falsy, the mapped mode when the
lowercased stripped tag is in `TAG_TO_MODE`, and otherwise falls off the end
of the function body, which in Python is an implicit `return None`; the
result type is therefore `Option ProcessingMode`. -/
def determine_processing_mode (tag : Option String) : Option ProcessingMode :=
  if ¬ truthyOpt tag then
    some ProcessingMode.FULL
  else
    let clean_tag := pyStrip (pyLower (tag.getD ""))
    match (TAG_TO_MODE.find? (fun p => p.1 = clean_tag)).map (·.2) with
    | some m => some m
    | none => none

/-! ## Result data model (`models/pipeline_models.py`) -/

/-- Python dict with string keys and values, as used for result metadata. -/
abbrev MetaDict := List (String × String)

/-- `ProcessingResult` from `models/pipeline_models.py` (the generic base;
only the fields the orchestrator reads are carried). -/
structure ProcessingResult where
  status : ProcessingStatus
  error_message : Option String := none
deriving DecidableEq, Repr

/-- `VideoProcessingResult` from `models/pipeline_models.py`. -/
structure VideoProcessingResult where
  status : ProcessingStatus
  error_message : Option String := none
  video_path : Option String := none
  transcription_text : Option String := none
  ocr_text : Option String := none
  combined_text : Option String := none
  metadata : MetaDict := []
deriving DecidableEq, Repr

/-- `LocationProcessingResult` from `models/pipeline_models.py`. -/
structure LocationProcessingResult where
  status : ProcessingStatus
  error_message : Option String := none
  places_found : Nat := 0
  location_file : Option String := none
deriving DecidableEq, Repr

/-- `NotionProcessingResult` from `models/pipeline_models.py`; the
`duplicates_skipped` field carries the `metadata['duplicates_skipped']`
entry of the source. -/
structure NotionProcessingResult where
  status : ProcessingStatus
  error_message : Option String := none
  entries_created : Nat := 0
  page_ids : List String := []
  duplicates_skipped : Nat := 0
deriving DecidableEq, Repr

/-- The `success` property of `ProcessingResult` (status equals SUCCESS). -/
def VideoProcessingResult.success (r : VideoProcessingResult) : Bool :=
  r.status == ProcessingStatus.SUCCESS

/-- The `success` property, for location results. -/
def LocationProcessingResult.success (r : LocationProcessingResult) : Bool :=
  r.status == ProcessingStatus.SUCCESS

/-- The `success` property, for Notion results. -/
def NotionProcessingResult.success (r : NotionProcessingResult) : Bool :=
  r.status == ProcessingStatus.SUCCESS

/-- `PipelineOptions` from `models/pipeline_models.py`, restricted to the
fields the orchestrator's control flow reads.  The `processing_mode` field is
modelled from the spec (section 3): the orchestrator and commands read it,
while the copy of `models/pipeline_models.py` under `src/` predates it. -/
structure PipelineOptions where
  create_notion_entry : Bool := false
  database_id : Option String := none
  processing_mode : ProcessingMode := ProcessingMode.FULL
deriving DecidableEq, Repr

/-! ## Single-URL pipeline run (`PipelineOrchestrator.run_single_url`) -/

/-- Oracle outcomes of the three stage steps and of cleanup for one run.
`Except.error` models a Python exception escaping the step (for steps 1 and 2
this can only come from command construction, since `execute` catches all
exceptions itself; for step 3 it also covers `CreateNotionEntryCommand.__init__`
raising inside the inner `try`).  `cleanup_ok` is the boolean returned by
`cleanup_video_files`, which the orchestrator uses only for logging. -/
structure SingleRunEnv where
  video_outcome : Except String VideoProcessingResult
  location_outcome : Except String LocationProcessingResult
  notion_outcome : Except String NotionProcessingResult
  cleanup_ok : Bool := true
deriving Repr

/-- The `results` dictionary returned by `run_single_url`, keyed `video` /
`location` / `notion` / `error` in the source (the spec calls the first and
third `content` and `publish`).  `none` models an absent key. -/
structure RunResults where
  video : Option VideoProcessingResult := none
  location : Option LocationProcessingResult := none
  notion : Option NotionProcessingResult := none
  error : Option ProcessingResult := none
deriving DecidableEq, Repr

/-- Observable trace of one `run_single_url` call: the returned result map,
the list of stage commands whose execution was reached (in order), whether
`cleanup_video_files` was invoked, and whether the run reached the normal
`return results` after the summary/cleanup block (as opposed to an early
return or the outer exception handler). -/
structure RunTrace where
  results : RunResults
  executed_stages : List String := []
  cleanup_called : Bool := false
  completed : Bool := false
deriving DecidableEq, Repr

/-- `PipelineOrchestrator.run_single_url` from `pipeline/orchestrator.py`
lines 49-126, with external effects supplied by `env`. -/
def run_single_url (options : PipelineOptions) (env : SingleRunEnv) : RunTrace :=
  match env.video_outcome with
  | Except.error e =>
      { results := { error := some { status := ProcessingStatus.FAILED,
                                     error_message := some ("Pipeline execution failed: " ++ e) } },
        executed_stages := [] }
  | Except.ok video_result =>
    let results0 : RunResults := { video := some video_result }
    if ¬ video_result.success then
      -- `return results` at line 72: only the video entry is populated
      { results := results0, executed_stages := ["video"] }
    else
      match env.location_outcome with
      | Except.error e =>
          { results := { results0 with
                         error := some { status := ProcessingStatus.FAILED,
                                         error_message := some ("Pipeline execution failed: " ++ e) } },
            executed_stages := ["video"] }
      | Except.ok location_result =>
        let results1 := { results0 with location := some location_result }
        if ¬ location_result.success then
          -- `return results` at line 82
          { results := results1, executed_stages := ["video", "location"] }
        else
          -- Step 3 runs only if publishing is requested (line 85)
          let step3 : RunResults × List String :=
            if options.create_notion_entry && truthyOpt options.database_id then
              match env.notion_outcome with
              | Except.ok notion_result =>
                  ({ results1 with notion := some notion_result },
                   ["video", "location", "notion"])
              | Except.error e =>
                  -- inner handler, lines 95-100
                  ({ results1 with notion := some { status := ProcessingStatus.FAILED,
                                                    error_message := some e } },
                   ["video", "location", "notion"])
            else (results1, ["video", "location"])
          -- Cleanup guard, line 106: requires a truthy metadata['video_id']
          let cleanup := video_result.success
                          && truthyOpt (pyGet video_result.metadata "video_id")
          { results := step3.1, executed_stages := step3.2,
            cleanup_called := cleanup, completed := true }

/-! ## Batch runner (`PipelineOrchestrator.run_batch_processing`) -/

/-- `BatchProcessingResult` from `models/pipeline_models.py`. -/
structure BatchProcessingResult where
  total_processed : Nat := 0
  successful : Nat := 0
  failed : Nat := 0
  errors : List String := []
deriving DecidableEq, Repr

/-- One pending entry from `get_pending_urls`: the dict
`{'url': ..., 'page_id': ..., 'tag': ...}`. -/
structure UrlEntry where
  url : String
  page_id : String
  tag : Option String := none
deriving DecidableEq, Repr

/-- A batch work item together with the oracle outcome of its inner `try`
block: `Except.ok` carries the result map of `url_orchestrator.run_single_url`
(which itself never raises), `Except.error` models any exception raised inside
the per-item `try` (e.g. `ConfigurationError` from orchestrator construction),
carrying `str(e)`. -/
abbrev BatchItem := UrlEntry × Except String RunResults

/-- One iteration of the loop at `pipeline/orchestrator.py` lines 171-225.
Returns the status written back to the source queue for this item (a
`(page_id, status)` pair), whether the item was counted successful, and the
error string appended to the batch error list, if any. -/
def process_batch_item (item : BatchItem) : (String × String) × Bool × Option String :=
  match item.2 with
  | Except.ok pipeline_results =>
      -- lines 197-204: `x_success = x_result and x_result.status == SUCCESS`
      let video_success := match pipeline_results.video with
        | some r => r.success
        | none => false
      let location_success := match pipeline_results.location with
        | some r => r.success
        | none => false
      let notion_success := match pipeline_results.notion with
        | some r => r.success
        | none => false
      if video_success && location_success && notion_success then
        ((item.1.page_id, "Completed"), true, none)
      else
        ((item.1.page_id, "Failed"), false,
         some ("Processing failed for: " ++ item.1.url))
  | Except.error e =>
      -- lines 219-225: unexpected exception, item marked Failed
      ((item.1.page_id, "Failed"), false,
       some ("Error processing " ++ item.1.url ++ ": " ++ e))

/-- Observable trace of `run_batch_processing`: the returned summary plus the
ordered list of `update_entry_status` write-backs. -/
structure BatchTrace where
  result : BatchProcessingResult
  status_writes : List (String × String) := []
deriving DecidableEq, Repr

/-- The loop of `run_batch_processing`, folding `process_batch_item` over the
pending entries while accumulating counters, errors and status write-backs. -/
def batch_loop (acc : BatchTrace) (items : List BatchItem) : BatchTrace :=
  match items with
  | [] => acc
  | item :: rest =>
      let step := process_batch_item item
      batch_loop
        { result := { total_processed := acc.result.total_processed,
                      successful := acc.result.successful + (if step.2.1 then 1 else 0),
                      failed := acc.result.failed + (if step.2.1 then 0 else 1),
                      errors := acc.result.errors ++ step.2.2.toList },
          status_writes := acc.status_writes ++ [step.1] }
        rest

/-- `PipelineOrchestrator.run_batch_processing` from `pipeline/orchestrator.py`
lines 128-261, with the pending entries and each item's pipeline outcome
supplied as oracle input.  An empty pending list returns the zero summary
without entering the loop (lines 152-159); otherwise `results['processed']`
is the number of entries and the loop runs. -/
def run_batch_processing (items : List BatchItem) : BatchTrace :=
  if items.isEmpty then
    { result := { total_processed := 0, successful := 0, failed := 0, errors := [] } }
  else
    batch_loop
      { result := { total_processed := items.length, successful := 0, failed := 0,
                    errors := [] },
        status_writes := [] }
      items

/-! ## Content stage (`TikTokProcessor.process_with_data_return` and
`ProcessVideoCommand.execute`) -/

/-- The results dict produced by the `TikTokProcessor` helpers
(`_process_metadata`, `_process_audio_only_data`, `_process_video_data`),
restricted to the keys `ProcessVideoCommand` reads. -/
structure VideoResults where
  success : Bool := true
  error : Option String := none
  combined_text : String := ""
  transcription_success : Bool := false
  transcription_text : String := ""
  ocr_success : Bool := false
  ocr_frame_texts : List String := []
  content_type : String := "unknown"
  video_path : Option String := none
deriving DecidableEq, Repr

/-- Oracle outcomes of the three `TikTokProcessor` sub-processors for one URL.
`metadata_results` is the value of `_process_metadata`, which
`process_with_data_return` computes unconditionally before dispatching on the
mode. -/
structure TikTokEnv where
  metadata_results : VideoResults := {}
  audio_results : VideoResults := {}
  full_results : VideoResults := {}
deriving DecidableEq, Repr

/-- The string `mode.value` of the `ProcessingMode` enum.  Modelled from the
spec: the enum body is not under `src/`; the values mirror the mode tags of
spec sections 3 and 4.1. -/
def ProcessingMode.value : ProcessingMode → String
  | ProcessingMode.FULL => "full"
  | ProcessingMode.METADATA_ONLY => "metadata-only"
  | ProcessingMode.AUDIO_ONLY => "audio-only"
  | ProcessingMode.CAROUSEL => "carousel"

/-- `TikTokProcessor.process_with_data_return` from
`services/video_processor/main.py` lines 33-45: metadata is processed first,
then `results` is `None` for `METADATA_ONLY`, the audio-only results for
`AUDIO_ONLY`, and the full video/carousel results otherwise.  Returns the
`(results, metadata)` pair. -/
def process_with_data_return (env : TikTokEnv) (processing_mode : ProcessingMode) :
    Option VideoResults × VideoResults :=
  let metadata := env.metadata_results
  let results : Option VideoResults :=
    if processing_mode = ProcessingMode.METADATA_ONLY then none
    else if processing_mode = ProcessingMode.AUDIO_ONLY then some env.audio_results
    else some env.full_results
  (results, metadata)

/-- `ProcessVideoCommand._extract_transcription_text` from
`pipeline/commands.py` lines 101-106. -/
def extract_transcription_text (results : VideoResults) : String :=
  if results.transcription_success then results.transcription_text else ""

/-- `ProcessVideoCommand._extract_ocr_text` from `pipeline/commands.py`
lines 108-114. -/
def extract_ocr_text (results : VideoResults) : String :=
  if results.ocr_success then String.intercalate " " results.ocr_frame_texts else ""

/-- `ProcessVideoCommand.execute` from `pipeline/commands.py` lines 51-99.
When `process_with_data_return` returns `None` as the results value (the
`METADATA_ONLY` path), the subsequent `video_results.get('success', False)`
raises `AttributeError: 'NoneType' object has no attribute 'get'`, which the
handler at line 91 converts into a `FAILED` result. -/
def process_video_execute (options : PipelineOptions) (url : String)
    (env : TikTokEnv) : VideoProcessingResult :=
  let pr := process_with_data_return env options.processing_mode
  match pr.1 with
  | none =>
      { status := ProcessingStatus.FAILED,
        error_message :=
          some "Video processing failed: 'NoneType' object has no attribute 'get'",
        metadata := [("url", url),
                     ("processing_mode", options.processing_mode.value)] }
  | some video_results =>
      if ¬ video_results.success then
        -- line 68 raises VideoProcessingError(error_msg, context={'url': url})
        let error_msg := video_results.error.getD "Unknown video processing error"
        { status := ProcessingStatus.FAILED,
          error_message :=
            some ("Video processing failed: " ++ error_msg ++ " (context: url=" ++ url ++ ")"),
          metadata := [("url", url),
                       ("processing_mode", options.processing_mode.value)] }
      else
        { status := ProcessingStatus.SUCCESS,
          video_path := video_results.video_path,
          transcription_text := some (extract_transcription_text video_results),
          ocr_text := some (extract_ocr_text video_results),
          combined_text := some video_results.combined_text,
          metadata := [("url", url),
                       ("content_type", video_results.content_type),
                       ("processing_mode", options.processing_mode.value)] }

/-! ## Place extraction stage (`LocationProcessor.extract_from_files` and
`ExtractLocationCommand`) -/

/-- `PlaceInfo` from `models/location_models.py`. -/
structure PlaceInfo where
  name : String
  address : Option String := none
  neighborhood : Option String := none
  categories : List String := []
  recommendations : Option String := none
  hours : Option String := none
  website : Option String := none
  visited : Bool := false
  is_popup : Bool := false
  maps_link : Option String := none
deriving DecidableEq, Repr

/-- `LocationInfo` from `models/location_models.py`. -/
structure LocationInfo where
  url : String := ""
  content_type : String := "single_place"
  places : List PlaceInfo := []
deriving DecidableEq, Repr

/-- One `place_data` dict of the analyzer's `analysis_result['places']`, as
read by the loop in `extract_from_files` (each key accessed via `.get`). -/
structure RawPlace where
  name : String := ""
  address : Option String := none
  neighborhood : Option String := none
  categories : List String := []
  recommendations : Option String := none
  hours : Option String := none
  website : Option String := none
  is_popup : Bool := false
deriving DecidableEq, Repr

/-- The dict returned by `GooglePlacesService.enhance_location_info`
(`services/location_processor/google_places.py`), restricted to the keys the
filtering loop reads; `maps_link` defaults to `""` as in
`places_data.get('maps_link', '')`. -/
structure PlacesData where
  has_valid_location : Bool := false
  formatted_address : Option String := none
  website : Option String := none
  hours : Option String := none
  maps_link : String := ""
deriving DecidableEq, Repr

/-- Python `a or b or ''` over two optional strings (used for
`location_hint = place_info.address or place_info.neighborhood or ''`). -/
def firstTruthy (a b : Option String) : String :=
  if truthyOpt a then a.getD ""
  else if truthyOpt b then b.getD ""
  else ""

/-- One iteration of the filtering loop in
`services/location_processor/main.py` lines 66-105, for a single raw place.
`enhance` is the oracle for `GooglePlacesService.enhance_location_info`.
Returns `none` when the place is skipped by a `continue` (empty stripped
name, no valid location, or empty maps link), else the retained `PlaceInfo`. -/
def process_place (enhance : String → String → PlacesData)
    (place_data : RawPlace) : Option PlaceInfo :=
  let place_name := pyStrip place_data.name
  if ¬ truthy place_name then none
  else
    let place_info : PlaceInfo :=
      { name := place_name,
        address := place_data.address,
        neighborhood := place_data.neighborhood,
        categories := place_data.categories,
        recommendations := place_data.recommendations,
        hours := place_data.hours,
        website := place_data.website,
        visited := false,
        is_popup := place_data.is_popup }
    let location_hint := firstTruthy place_info.address place_info.neighborhood
    let places_data := enhance place_name location_hint
    if ¬ places_data.has_valid_location then none
    else
      let pi1 := if truthyOpt places_data.formatted_address
                 then { place_info with address := places_data.formatted_address }
                 else place_info
      let pi2 := if truthyOpt places_data.website
                 then { pi1 with website := places_data.website }
                 else pi1
      let pi3 := if truthyOpt places_data.hours && ¬ truthyOpt pi2.hours
                 then { pi2 with hours := places_data.hours }
                 else pi2
      let pi4 := { pi3 with maps_link := some places_data.maps_link }
      if truthyOpt pi4.maps_link then some pi4 else none

/-- The places list assembled by `extract_from_files`
(`services/location_processor/main.py` lines 63-105): the loop with its three
`continue` sites appends exactly the places `process_place` retains, in
order. -/
def extract_places (enhance : String → String → PlacesData)
    (analysis_places : List RawPlace) : List PlaceInfo :=
  analysis_places.filterMap (process_place enhance)

/-- The `LocationInfo` returned by `extract_from_files` (lines 107-111). -/
def extract_from_files (enhance : String → String → PlacesData)
    (url content_type : String) (analysis_places : List RawPlace) : LocationInfo :=
  { url := url, content_type := content_type,
    places := extract_places enhance analysis_places }

/-- `ExtractLocationCommand.execute_with_data` from `pipeline/commands.py`
lines 124-165: a normally returned `LocationInfo` always yields a `SUCCESS`
result carrying `places_found = len(location_info.places)`; an exception from
the processor yields `FAILED`. -/
def execute_with_data (outcome : Except String LocationInfo) : LocationProcessingResult :=
  match outcome with
  | Except.ok location_info =>
      { status := ProcessingStatus.SUCCESS,
        places_found := location_info.places.length,
        location_file := none }
  | Except.error e =>
      { status := ProcessingStatus.FAILED,
        error_message := some ("Location extraction failed: " ++ e) }

/-! ## Entry publisher with deduplication
(`services/notion_service/location_handler.py` and
`CreateNotionEntryCommand.execute`) -/

/-- One record of the destination collection, reduced to the fields the
deduplication logic reads: the page id and the content of the
`Name of Place` title property (`""` when the title was not set). -/
structure NotionRecord where
  id : String
  title : String
deriving DecidableEq, Repr

/-- Modelled from the spec: the external Record Store (spec section 6) behind
`NotionClient`, holding the records of one collection in creation order plus
a fresh-id counter. -/
structure NotionStore where
  records : List NotionRecord := []
  next_id : Nat := 0
deriving DecidableEq, Repr

/-- Modelled from the spec: `NotionClient.query_database` with the
title-equals filter built in `_find_existing_entry` — per the Record Store
contract `findByTitle` (spec section 6), it returns exactly the records whose
title field equals the place name. -/
def query_database (store : NotionStore) (place_name : String) : List NotionRecord :=
  store.records.filter (fun r => r.title = place_name)

/-- Modelled from the spec: `NotionClient.create_database_entry` — per the
Record Store contract `create` (spec section 6), it appends a new record with
a fresh id and returns it. -/
def create_database_entry (store : NotionStore) (title : String) :
    NotionStore × NotionRecord :=
  let page : NotionRecord := { id := "page-" ++ toString store.next_id, title := title }
  ({ records := store.records ++ [page], next_id := store.next_id + 1 }, page)

/-- The transformer output dict (`transformers/location_transformer.py`
`transform_place`), reduced to the key the deduplication and title logic
read: `"name of place"`, which is set to `place.name`.  The absent-key and
empty-string cases coincide (`""`), since both are falsy at every use. -/
structure LocationData where
  name_of_place : String := ""
deriving DecidableEq, Repr

/-- `LocationToNotionTransformer.transform_place`, restricted to the
dedup-relevant field. -/
def transform_place (place : PlaceInfo) : LocationData :=
  { name_of_place := place.name }

/-- The content of the `Name of Place` title property produced by
`_format_location_properties` (set only when the name is truthy; an absent
title is modelled as `""`, which equals the name in that case anyway). -/
def format_title (ld : LocationData) : String := ld.name_of_place

/-- `LocationHandler._find_existing_entry` from
`services/notion_service/location_handler.py` lines 61-97: on a lookup
exception (`lookup_raises`) the handler catches it and returns `None`
(lines 95-97); otherwise it returns the first record matching the
title-equals filter, or `None` when there is no match. -/
def find_existing_entry (lookup_raises : Bool) (store : NotionStore)
    (place_name : String) : Option NotionRecord :=
  if lookup_raises then none
  else (query_database store place_name).head?

/-- The `{'id': ..., 'duplicate': ...}` response of `create_location_entry`. -/
structure EntryCreationResult where
  id : String
  duplicate : Bool
deriving DecidableEq, Repr

/-- `LocationHandler.create_location_entry` from
`services/notion_service/location_handler.py` lines 27-59: a truthy place
name triggers the duplicate lookup; a found duplicate is returned as-is with
`duplicate=true` and the store untouched; otherwise a new entry is created
with `duplicate=false`. -/
def create_location_entry (lookup_raises : Bool) (store : NotionStore)
    (location_data : LocationData) : NotionStore × EntryCreationResult :=
  let place_name := location_data.name_of_place
  let existing : Option NotionRecord :=
    if truthy place_name then find_existing_entry lookup_raises store place_name
    else none
  match existing with
  | some existing_entry => (store, { id := existing_entry.id, duplicate := true })
  | none =>
      let created := create_database_entry store (format_title location_data)
      (created.1, { id := created.2.id, duplicate := false })

/-- The per-place loop of `CreateNotionEntryCommand.execute`
(`pipeline/commands.py` lines 259-282): publishes each place in order,
collecting `created_page_ids` and `duplicate_count`.  (The per-place
`except ... continue` handler is unreachable in this model because the
embedded store operations are total; the lookup-failure path is inside
`create_location_entry`.) -/
def publish_places (lookup_raises : Bool) (store : NotionStore) :
    List PlaceInfo → NotionStore × List String × Nat
  | [] => (store, [], 0)
  | place :: rest =>
      let created := create_location_entry lookup_raises store (transform_place place)
      let tail := publish_places lookup_raises created.1 rest
      (tail.1, created.2.id :: tail.2.1,
       (if created.2.duplicate then 1 else 0) + tail.2.2)

/-- `CreateNotionEntryCommand.execute` from `pipeline/commands.py`
lines 230-296, from the point where the location result was successful:
no places yields `SUCCESS` with zero entries; otherwise the loop runs and
`entries_created = len(created_page_ids) - duplicate_count`. -/
def create_notion_entry_execute (lookup_raises : Bool) (store : NotionStore)
    (places : List PlaceInfo) : NotionStore × NotionProcessingResult :=
  if places.isEmpty then
    (store, { status := ProcessingStatus.SUCCESS, entries_created := 0 })
  else
    let published := publish_places lookup_raises store places
    (published.1,
     { status := ProcessingStatus.SUCCESS,
       entries_created := published.2.1.length - published.2.2,
       page_ids := published.2.1,
       duplicates_skipped := published.2.2 })

/-! ## Helper lemmas -/

/-- `pyStrip` in terms of `List.dropWhile` and `List.rdropWhile`. -/
lemma pyStrip_data (s : String) :
    (pyStrip s).data =
      List.rdropWhile Char.isWhitespace (s.data.dropWhile Char.isWhitespace) := by
  simp [pyStrip, List.rdropWhile]

/-- A string strips to empty exactly when all its characters are whitespace. -/
lemma pyStrip_eq_empty_iff (s : String) :
    pyStrip s = "" ↔ ∀ c ∈ s.data, c.isWhitespace := by
  constructor
  · intro he c hc
    have hdata : (pyStrip s).data = [] := by rw [he]
    rw [pyStrip_data, List.rdropWhile_eq_nil_iff] at hdata
    have hsplit := List.takeWhile_append_dropWhile (p := Char.isWhitespace) (l := s.data)
    rw [← hsplit] at hc
    rcases List.mem_append.mp hc with h1 | h2
    · exact List.mem_takeWhile_imp h1
    · exact hdata c h2
  · intro hall
    have hnil : (pyStrip s).data = [] := by
      rw [pyStrip_data, List.rdropWhile_eq_nil_iff]
      intro x hx
      exact hall x ((List.dropWhile_suffix _).subset hx)
    exact String.ext hnil

/-- A non-empty stripped string is still non-empty after stripping again
(stripping is idempotent on emptiness). -/
lemma pyStrip_pyStrip_ne_empty (s : String) (h : pyStrip s ≠ "") :
    pyStrip (pyStrip s) ≠ "" := by
  intro hcon
  rw [pyStrip_eq_empty_iff] at hcon
  have hdata : (pyStrip s).data ≠ [] := fun hnil => h (String.ext hnil)
  rw [pyStrip_data] at hdata
  have hlast := List.rdropWhile_last_not Char.isWhitespace
      (s.data.dropWhile Char.isWhitespace) hdata
  apply hlast
  apply hcon
  rw [pyStrip_data]
  exact List.getLast_mem hdata

/-- The `success` predicate of video results, expressed on the status. -/
lemma video_success_iff (r : VideoProcessingResult) :
    r.success = true ↔ r.status = ProcessingStatus.SUCCESS := by
  simp [VideoProcessingResult.success]

/-- The `success` predicate of location results, expressed on the status. -/
lemma location_success_iff (r : LocationProcessingResult) :
    r.success = true ↔ r.status = ProcessingStatus.SUCCESS := by
  simp [LocationProcessingResult.success]

/-- The `success` predicate of Notion results, expressed on the status. -/
lemma notion_success_iff (r : NotionProcessingResult) :
    r.success = true ↔ r.status = ProcessingStatus.SUCCESS := by
  simp [NotionProcessingResult.success]

/-- Counting a predicate and its negation over a list covers its length. -/
lemma countP_add_countP_not {α : Type} (p : α → Bool) (l : List α) :
    l.countP p + l.countP (fun a => !(p a)) = l.length := by
  induction l with
  | nil => simp
  | cons a l ih =>
      simp only [List.countP_cons, List.length_cons]
      cases h : p a <;> simp [h] <;> omega

/-- Closed form of the batch loop: counters, errors and status write-backs are
pointwise functions of the individual items. -/
lemma batch_loop_spec (items : List BatchItem) (acc : BatchTrace) :
    batch_loop acc items =
      { result := { total_processed := acc.result.total_processed,
                    successful := acc.result.successful
                      + items.countP (fun i => (process_batch_item i).2.1),
                    failed := acc.result.failed
                      + items.countP (fun i => !(process_batch_item i).2.1),
                    errors := acc.result.errors
                      ++ items.filterMap (fun i => (process_batch_item i).2.2) },
        status_writes := acc.status_writes
          ++ items.map (fun i => (process_batch_item i).1) } := by
  induction items generalizing acc with
  | nil => simp [batch_loop]
  | cons head tail ih =>
      rw [batch_loop, ih]
      simp only [List.countP_cons, List.filterMap_cons, List.map_cons]
      by_cases h : (process_batch_item head).2.1 = true
      · simp [h]
        refine ⟨by omega, ?_⟩
        cases (process_batch_item head).2.2 <;> simp
      · have h' : (process_batch_item head).2.1 = false := by
          revert h
          cases (process_batch_item head).2.1 <;> simp
        simp [h']
        refine ⟨by omega, ?_⟩
        cases (process_batch_item head).2.2 <;> simp

/-- A place retained by the filtering loop has a name that is non-empty after
stripping and a non-empty maps link. -/
lemma process_place_some (enhance : String → String → PlacesData)
    (raw : RawPlace) (pi : PlaceInfo)
    (h : process_place enhance raw = some pi) :
    pyStrip pi.name ≠ "" ∧ ∃ s, pi.maps_link = some s ∧ s ≠ "" := by
  rw [process_place] at h
  split at h
  · exact absurd h (by simp)
  · rename_i h1
    rw [Bool.not_eq_true, Bool.not_eq_false] at h1
    dsimp only at h
    split at h
    · exact absurd h (by simp)
    · split at h
      · rename_i h3
        rcases Option.some_inj.mp h with rfl
        have h1' : pyStrip raw.name ≠ "" := by simpa [truthy] using h1
        constructor
        · simpa [apply_ite PlaceInfo.name] using pyStrip_pyStrip_ne_empty _ h1'
        · exact ⟨_, rfl, by simpa [truthyOpt, truthy] using h3⟩
      · exact absurd h (by simp)

/-! ## Claim theorems -/

/-- C1: the claim says the mode resolver is a total function with `Full` as
the fallback for every unrecognized non-empty tag.  The code disagrees: for a
non-empty tag outside the lookup table, `_determine_processing_mode` falls off
the end of the function and implicitly returns `None` (no mode at all), while
the falsy and recognized inputs behave as claimed.  This theorem evaluates the
embedded resolver at such a failing input and at the claimed-good inputs. -/
theorem C1_unrecognized_tag_resolves_to_no_mode :
    determine_processing_mode (some "unknown-tag") = none ∧
    determine_processing_mode none = some ProcessingMode.FULL ∧
    determine_processing_mode (some "") = some ProcessingMode.FULL ∧
    determine_processing_mode (some " Metadata-Only ") = some ProcessingMode.METADATA_ONLY ∧
    determine_processing_mode (some "audio-only") = some ProcessingMode.AUDIO_ONLY ∧
    determine_processing_mode (some "carousel") = some ProcessingMode.CAROUSEL := by
  refine ⟨?_, ?_, ?_, ?_, ?_, ?_⟩ <;> decide

/-- C2: when the content (video) stage returns a `Failed` result, the run
returns immediately with a result map holding only the `video` entry; the
location and publish stages are not executed, no cleanup happens, and the run
does not reach normal completion. -/
theorem C2_content_failure_aborts_run (options : PipelineOptions)
    (env : SingleRunEnv) (vr : VideoProcessingResult)
    (hv : env.video_outcome = Except.ok vr)
    (hf : vr.status = ProcessingStatus.FAILED) :
    run_single_url options env =
      { results := { video := some vr }, executed_stages := ["video"] } := by
  have hs : vr.success = false := by
    simp [VideoProcessingResult.success, hf]
  simp [run_single_url, hv, hs]

/-- Witness for C2 at a concrete failed video result. -/
theorem C2_content_failure_aborts_run_witness :
    run_single_url {}
        { video_outcome := Except.ok { status := ProcessingStatus.FAILED },
          location_outcome := Except.ok { status := ProcessingStatus.SUCCESS },
          notion_outcome := Except.ok { status := ProcessingStatus.SUCCESS } } =
      { results := { video := some { status := ProcessingStatus.FAILED } },
        executed_stages := ["video"] } :=
  C2_content_failure_aborts_run _ _ _ rfl rfl

/-- C3: when content and location succeed, publishing is requested, and the
publish stage fails (returns `Failed` or raises), the run still reaches normal
completion and the result map holds all three entries, with the publish entry
recording the failure. -/
theorem C3_publish_failure_is_soft (options : PipelineOptions)
    (env : SingleRunEnv)
    (vr : VideoProcessingResult) (lr : LocationProcessingResult)
    (hv : env.video_outcome = Except.ok vr)
    (hvs : vr.status = ProcessingStatus.SUCCESS)
    (hl : env.location_outcome = Except.ok lr)
    (hls : lr.status = ProcessingStatus.SUCCESS)
    (hpub : options.create_notion_entry = true)
    (hdb : truthyOpt options.database_id = true)
    (hnf : match env.notion_outcome with
           | Except.ok nr => nr.status = ProcessingStatus.FAILED
           | Except.error _ => True) :
    (run_single_url options env).completed = true ∧
    (run_single_url options env).results.video = some vr ∧
    (run_single_url options env).results.location = some lr ∧
    ∃ nr, (run_single_url options env).results.notion = some nr ∧
          nr.status = ProcessingStatus.FAILED := by
  have hs1 : vr.success = true := by simp [VideoProcessingResult.success, hvs]
  have hs2 : lr.success = true := by simp [LocationProcessingResult.success, hls]
  cases hn : env.notion_outcome with
  | ok nr =>
      rw [hn] at hnf
      simp only [run_single_url, hv, hs1, hl, hs2, hpub, hdb, hn]
      simp
      exact hnf
  | error e =>
      simp only [run_single_url, hv, hs1, hl, hs2, hpub, hdb, hn]
      simp

/-- Witness for C3 at a concrete run with a failed publish stage. -/
theorem C3_publish_failure_is_soft_witness :
    (run_single_url { create_notion_entry := true, database_id := some "db-1" }
        { video_outcome := Except.ok { status := ProcessingStatus.SUCCESS },
          location_outcome := Except.ok { status := ProcessingStatus.SUCCESS },
          notion_outcome := Except.ok { status := ProcessingStatus.FAILED } }).completed
      = true ∧
    (run_single_url { create_notion_entry := true, database_id := some "db-1" }
        { video_outcome := Except.ok { status := ProcessingStatus.SUCCESS },
          location_outcome := Except.ok { status := ProcessingStatus.SUCCESS },
          notion_outcome := Except.ok { status := ProcessingStatus.FAILED } }).results.video
      = some { status := ProcessingStatus.SUCCESS } ∧
    (run_single_url { create_notion_entry := true, database_id := some "db-1" }
        { video_outcome := Except.ok { status := ProcessingStatus.SUCCESS },
          location_outcome := Except.ok { status := ProcessingStatus.SUCCESS },
          notion_outcome := Except.ok { status := ProcessingStatus.FAILED } }).results.location
      = some { status := ProcessingStatus.SUCCESS } ∧
    ∃ nr,
      (run_single_url { create_notion_entry := true, database_id := some "db-1" }
          { video_outcome := Except.ok { status := ProcessingStatus.SUCCESS },
            location_outcome := Except.ok { status := ProcessingStatus.SUCCESS },
            notion_outcome := Except.ok { status := ProcessingStatus.FAILED } }).results.notion
        = some nr ∧ nr.status = ProcessingStatus.FAILED :=
  C3_publish_failure_is_soft _ _ _ _ rfl rfl rfl rfl rfl (by decide) rfl

/-- C4: a batch work item whose pipeline run returned a result map is
classified successful exactly when all three of the video (content), location
and notion (publish) entries are present and report `SUCCESS`; its status
write-back to the queue is `Completed` when so classified and `Failed`
otherwise. -/
theorem C4_batch_classification_all_three_stages (e : UrlEntry) (res : RunResults) :
    ((process_batch_item (e, Except.ok res)).2.1 = true ↔
      ((∃ r, res.video = some r ∧ r.status = ProcessingStatus.SUCCESS) ∧
       (∃ r, res.location = some r ∧ r.status = ProcessingStatus.SUCCESS) ∧
       (∃ r, res.notion = some r ∧ r.status = ProcessingStatus.SUCCESS)))
    ∧ (process_batch_item (e, Except.ok res)).1 =
        (e.page_id,
         if (process_batch_item (e, Except.ok res)).2.1 then "Completed" else "Failed") := by
  constructor
  · simp only [process_batch_item]
    cases hv : res.video <;> cases hl : res.location <;> cases hn : res.notion <;>
      simp [video_success_iff, location_success_iff, notion_success_iff]
    split_ifs with hif <;> simp <;> tauto
  · simp only [process_batch_item]
    split <;> simp

/-- C5: a batch over N items in which item k raises an unhandled exception
still completes: the summary reports total = N with successful + failed = N,
each item's status write-back is a function of that item's own outcome (so no
item can affect another's), item k is written back `Failed` with its
exception message appended to the error list, and the successful count is
exactly the number of items individually classified successful. -/
theorem C5_batch_isolation (items : List BatchItem) (k : Nat)
    (e : UrlEntry) (msg : String)
    (hk : items[k]? = some (e, Except.error msg)) :
    (run_batch_processing items).result.total_processed = items.length ∧
    (run_batch_processing items).result.successful
      + (run_batch_processing items).result.failed = items.length ∧
    (run_batch_processing items).status_writes
      = items.map (fun i => (process_batch_item i).1) ∧
    (run_batch_processing items).status_writes[k]? = some (e.page_id, "Failed") ∧
    ("Error processing " ++ e.url ++ ": " ++ msg)
      ∈ (run_batch_processing items).result.errors ∧
    (run_batch_processing items).result.successful
      = items.countP (fun i => (process_batch_item i).2.1) := by
  have hne : ¬ items.isEmpty := by
    cases items with
    | nil => simp at hk
    | cons a l => simp
  have hrun : run_batch_processing items =
      { result := { total_processed := items.length,
                    successful := items.countP (fun i => (process_batch_item i).2.1),
                    failed := items.countP (fun i => !(process_batch_item i).2.1),
                    errors := items.filterMap (fun i => (process_batch_item i).2.2) },
        status_writes := items.map (fun i => (process_batch_item i).1) } := by
    rw [run_batch_processing, if_neg hne, batch_loop_spec]
    simp
  rw [hrun]
  refine ⟨rfl, countP_add_countP_not _ _, rfl, ?_, ?_, rfl⟩
  · rw [List.getElem?_map, hk]
    simp [process_batch_item]
  · rw [List.mem_filterMap]
    exact ⟨(e, Except.error msg), List.getElem?_mem hk, by simp [process_batch_item]⟩

/-- Witness for C5: a three-item batch whose middle item raises. -/
theorem C5_batch_isolation_witness :
    (run_batch_processing
        [({ url := "u1", page_id := "p1" },
          Except.ok { video := some { status := ProcessingStatus.SUCCESS },
                      location := some { status := ProcessingStatus.SUCCESS },
                      notion := some { status := ProcessingStatus.SUCCESS } }),
         ({ url := "u2", page_id := "p2" }, Except.error "boom"),
         ({ url := "u3", page_id := "p3" },
          Except.ok { video := some { status := ProcessingStatus.FAILED } })]).result.total_processed
      = 3 ∧
    (run_batch_processing
        [({ url := "u1", page_id := "p1" },
          Except.ok { video := some { status := ProcessingStatus.SUCCESS },
                      location := some { status := ProcessingStatus.SUCCESS },
                      notion := some { status := ProcessingStatus.SUCCESS } }),
         ({ url := "u2", page_id := "p2" }, Except.error "boom"),
         ({ url := "u3", page_id := "p3" },
          Except.ok { video := some { status := ProcessingStatus.FAILED } })]).result.successful
      + (run_batch_processing
        [({ url := "u1", page_id := "p1" },
          Except.ok { video := some { status := ProcessingStatus.SUCCESS },
                      location := some { status := ProcessingStatus.SUCCESS },
                      notion := some { status := ProcessingStatus.SUCCESS } }),
         ({ url := "u2", page_id := "p2" }, Except.error "boom"),
         ({ url := "u3", page_id := "p3" },
          Except.ok { video := some { status := ProcessingStatus.FAILED } })]).result.failed
      = 3 ∧
    (run_batch_processing
        [({ url := "u1", page_id := "p1" },
          Except.ok { video := some { status := ProcessingStatus.SUCCESS },
                      location := some { status := ProcessingStatus.SUCCESS },
                      notion := some { status := ProcessingStatus.SUCCESS } }),
         ({ url := "u2", page_id := "p2" }, Except.error "boom"),
         ({ url := "u3", page_id := "p3" },
          Except.ok { video := some { status := ProcessingStatus.FAILED } })]).status_writes
      = [("p1", "Completed"), ("p2", "Failed"), ("p3", "Failed")] := by
  have h := C5_batch_isolation
    [({ url := "u1", page_id := "p1" },
      Except.ok { video := some { status := ProcessingStatus.SUCCESS },
                  location := some { status := ProcessingStatus.SUCCESS },
                  notion := some { status := ProcessingStatus.SUCCESS } }),
     ({ url := "u2", page_id := "p2" }, Except.error "boom"),
     ({ url := "u3", page_id := "p3" },
      Except.ok { video := some { status := ProcessingStatus.FAILED } })]
    1 { url := "u2", page_id := "p2" } "boom" rfl
  refine ⟨h.1, h.2.1, ?_⟩
  rw [h.2.2.1]
  rfl

/-- C6: publishing is idempotent per place name.  When the store already holds
a record titled with the place's (non-empty) name, publishing returns the
existing record's id marked `duplicate=true` and leaves the store unchanged;
publishing the same name twice into a store without it creates exactly one
record, the second call returning `duplicate=true` with the first call's id
and not modifying the store; and the publish stage reports
`entries_created = len(page_ids) - duplicates_skipped`. -/
theorem C6_publish_deduplication_idempotent (store : NotionStore)
    (ld : LocationData) (name : String)
    (hname : ld.name_of_place = name) (hne : name ≠ "")
    (ex : NotionRecord) (hex : (query_database store name).head? = some ex) :
    create_location_entry false store ld = (store, { id := ex.id, duplicate := true }) ∧
    (∀ store2 : NotionStore, query_database store2 name = [] →
      (create_location_entry false store2 ld).2.duplicate = false ∧
      (create_location_entry false (create_location_entry false store2 ld).1 ld).1
        = (create_location_entry false store2 ld).1 ∧
      (create_location_entry false (create_location_entry false store2 ld).1 ld).2.duplicate
        = true ∧
      (create_location_entry false (create_location_entry false store2 ld).1 ld).2.id
        = (create_location_entry false store2 ld).2.id ∧
      (((create_location_entry false store2 ld).1).records.filter
          (fun r => r.title = name)).length = 1) ∧
    (∀ (lookup_raises : Bool) (store3 : NotionStore) (places : List PlaceInfo),
      (create_notion_entry_execute lookup_raises store3 places).2.entries_created
        = (create_notion_entry_execute lookup_raises store3 places).2.page_ids.length
          - (create_notion_entry_execute lookup_raises store3 places).2.duplicates_skipped) := by
  refine ⟨?_, ?_, ?_⟩
  · simp [create_location_entry, find_existing_entry, hname, truthy, hne, hex]
  · intro store2 h2
    have h2' : store2.records.filter (fun r => r.title = name) = [] := h2
    have hfind2 : find_existing_entry false store2 name = none := by
      simp [find_existing_entry, query_database, h2']
    have hstep1 : create_location_entry false store2 ld =
        ({ records := store2.records
             ++ [{ id := "page-" ++ toString store2.next_id, title := name }],
           next_id := store2.next_id + 1 },
         { id := "page-" ++ toString store2.next_id, duplicate := false }) := by
      simp [create_location_entry, hname, truthy, hne, hfind2,
            create_database_entry, format_title]
    have hfilter : (store2.records
        ++ [({ id := "page-" ++ toString store2.next_id, title := name } : NotionRecord)]).filter
          (fun r => r.title = name)
        = [({ id := "page-" ++ toString store2.next_id, title := name } : NotionRecord)] := by
      simp [List.filter_append, h2']
    have hfind3 : find_existing_entry false (create_location_entry false store2 ld).1 name
        = some { id := "page-" ++ toString store2.next_id, title := name } := by
      rw [hstep1]
      simp [find_existing_entry, query_database, hfilter]
    have hstep2 : create_location_entry false (create_location_entry false store2 ld).1 ld
        = ((create_location_entry false store2 ld).1,
           { id := "page-" ++ toString store2.next_id, duplicate := true }) := by
      rw [create_location_entry, hname]
      simp only [truthy, hne, hfind3]
      simp [hne]
    refine ⟨by rw [hstep1], by rw [hstep2], by rw [hstep2], ?_, ?_⟩
    · rw [hstep2, hstep1]
    · rw [hstep1]
      simp [hfilter]
  · intro lookup_raises store3 places
    rw [create_notion_entry_execute]
    split <;> simp

/-- Witness for C6: the place name Golden Dragon against a one-record store
holding it, and against the empty store for the publish-twice part. -/
theorem C6_publish_deduplication_idempotent_witness :
    create_location_entry false
        { records := [{ id := "page-0", title := "Golden Dragon" }], next_id := 1 }
        { name_of_place := "Golden Dragon" }
      = ({ records := [{ id := "page-0", title := "Golden Dragon" }], next_id := 1 },
         { id := "page-0", duplicate := true }) ∧
    (create_location_entry false
        (create_location_entry false { records := [], next_id := 0 }
            { name_of_place := "Golden Dragon" }).1
        { name_of_place := "Golden Dragon" }).2.duplicate = true ∧
    ((create_location_entry false { records := [], next_id := 0 }
        { name_of_place := "Golden Dragon" }).1.records.filter
          (fun r => r.title = "Golden Dragon")).length = 1 := by
  have h := C6_publish_deduplication_idempotent
    { records := [{ id := "page-0", title := "Golden Dragon" }], next_id := 1 }
    { name_of_place := "Golden Dragon" } "Golden Dragon" rfl (by decide)
    { id := "page-0", title := "Golden Dragon" } (by decide)
  have h2 := h.2.1 { records := [], next_id := 0 } (by decide)
  exact ⟨h.1, h2.2.2.1, h2.2.2.2.2⟩

/-- C7: every place in the bundle produced by the extraction stage has a name
that is non-empty after trimming and a non-empty maps link (places failing
either check were dropped by the filtering loop), and the stage wraps any
normally produced bundle — including one with an empty place list — in a
`SUCCESS` result. -/
theorem C7_extracted_places_invariant (enhance : String → String → PlacesData)
    (url content_type : String) (raws : List RawPlace) :
    (∀ pi ∈ (extract_from_files enhance url content_type raws).places,
        pyStrip pi.name ≠ "" ∧ ∃ s, pi.maps_link = some s ∧ s ≠ "") ∧
    (execute_with_data (Except.ok (extract_from_files enhance url content_type raws))).status
      = ProcessingStatus.SUCCESS := by
  constructor
  · intro pi hpi
    simp only [extract_from_files, extract_places] at hpi
    rcases List.mem_filterMap.mp hpi with ⟨raw, _, hr⟩
    exact process_place_some enhance raw pi hr
  · rfl

/-- C8: the claim says best-effort cleanup of temporary artifacts always runs
once a single-URL run reaches completion.  The code disagrees: the cleanup
guard requires a truthy `video_result.metadata['video_id']`, but
`ProcessVideoCommand.execute` only ever records `url`, `content_type` and
`processing_mode` in that metadata, so `cleanup_video_files` is never invoked
on any run whose content result came from the content stage.  (The second
conjunct checks the claim's remaining part: the boolean returned by cleanup
never influences the run's outcome.) -/
theorem C8_cleanup_never_invoked (options options2 : PipelineOptions)
    (url : String) (tenv : TikTokEnv) (senv : SingleRunEnv)
    (hv : senv.video_outcome = Except.ok (process_video_execute options url tenv)) :
    (run_single_url options2 senv).cleanup_called = false ∧
    (∀ b, run_single_url options2 { senv with cleanup_ok := b } =
            run_single_url options2 senv) := by
  have hmeta : pyGet (process_video_execute options url tenv).metadata "video_id" = none := by
    simp only [process_video_execute]
    split
    · simp [pyGet, List.find?]
    · split <;> simp [pyGet, List.find?]
  constructor
  · simp only [run_single_url, hv]
    split
    · rfl
    · split
      · rfl
      · split
        · rfl
        · simp [hmeta, truthyOpt]
  · intro b
    simp [run_single_url]

/-- Witness for C8: a fully successful concrete run in which cleanup is still
not invoked. -/
theorem C8_cleanup_never_invoked_witness :
    (run_single_url {}
        { video_outcome := Except.ok (process_video_execute {} "https://t/v" {}),
          location_outcome := Except.ok { status := ProcessingStatus.SUCCESS },
          notion_outcome := Except.ok { status := ProcessingStatus.SUCCESS } }).cleanup_called
      = false ∧
    (∀ b,
      run_single_url {}
        { video_outcome := Except.ok (process_video_execute {} "https://t/v" {}),
          location_outcome := Except.ok { status := ProcessingStatus.SUCCESS },
          notion_outcome := Except.ok { status := ProcessingStatus.SUCCESS },
          cleanup_ok := b } =
      run_single_url {}
        { video_outcome := Except.ok (process_video_execute {} "https://t/v" {}),
          location_outcome := Except.ok { status := ProcessingStatus.SUCCESS },
          notion_outcome := Except.ok { status := ProcessingStatus.SUCCESS } }) :=
  C8_cleanup_never_invoked {} {} "https://t/v" {}
    { video_outcome := Except.ok (process_video_execute {} "https://t/v" {}),
      location_outcome := Except.ok { status := ProcessingStatus.SUCCESS },
      notion_outcome := Except.ok { status := ProcessingStatus.SUCCESS } } rfl

/-- C9: the claim says a `MetadataOnly` run's content stage succeeds with
`combined_text` equal to the fetched description and no transcription or OCR.
The code disagrees: `process_with_data_return` returns `None` as the results
value in that mode, and `ProcessVideoCommand.execute` then calls `.get` on it,
raising `AttributeError`, so the content stage returns `Failed` for every
`MetadataOnly` URL. -/
theorem C9_metadata_only_content_stage_fails (options : PipelineOptions)
    (url : String) (env : TikTokEnv)
    (hm : options.processing_mode = ProcessingMode.METADATA_ONLY) :
    process_video_execute options url env =
      { status := ProcessingStatus.FAILED,
        error_message :=
          some "Video processing failed: 'NoneType' object has no attribute 'get'",
        metadata := [("url", url), ("processing_mode", "metadata-only")] } := by
  simp [process_video_execute, process_with_data_return, hm, ProcessingMode.value]

/-- Witness for C9 at a concrete URL and metadata environment. -/
theorem C9_metadata_only_content_stage_fails_witness :
    process_video_execute { processing_mode := ProcessingMode.METADATA_ONLY }
        "https://t/v" { metadata_results := { combined_text := "a nice cafe" } } =
      { status := ProcessingStatus.FAILED,
        error_message :=
          some "Video processing failed: 'NoneType' object has no attribute 'get'",
        metadata := [("url", "https://t/v"), ("processing_mode", "metadata-only")] } :=
  C9_metadata_only_content_stage_fails _ _ _ rfl

/-- C10: when the duplicate-lookup query raises, the error is swallowed and
the place is treated as new: the publish still goes through, a record is
appended with `duplicate=false`, and for a name already present in the store
this leaves at least two records with that title. -/
theorem C10_swallowed_lookup_failure_creates_duplicate (store : NotionStore)
    (ld : LocationData) (name : String)
    (hname : ld.name_of_place = name) (hne : name ≠ "")
    (ex : NotionRecord) (hex : ex ∈ store.records) (hextitle : ex.title = name) :
    (create_location_entry true store ld).2.duplicate = false ∧
    (create_location_entry true store ld).1.records
      = store.records ++ [{ id := "page-" ++ toString store.next_id, title := name }] ∧
    2 ≤ ((create_location_entry true store ld).1.records.filter
          (fun r => r.title = name)).length := by
  have hstep : create_location_entry true store ld =
      ({ records := store.records
           ++ [{ id := "page-" ++ toString store.next_id, title := name }],
         next_id := store.next_id + 1 },
       { id := "page-" ++ toString store.next_id, duplicate := false }) := by
    simp [create_location_entry, find_existing_entry, hname, truthy, hne,
          create_database_entry, format_title]
  refine ⟨by rw [hstep], by rw [hstep], ?_⟩
  rw [hstep]
  have hmem : ex ∈ store.records.filter (fun r => r.title = name) :=
    List.mem_filter.mpr ⟨hex, by simp [hextitle]⟩
  have h1 : 1 ≤ (store.records.filter (fun r => r.title = name)).length :=
    List.length_pos.mpr (fun hnil => by simp [hnil] at hmem)
  simp [List.filter_append]
  omega

/-- Witness for C10: a store already holding Golden Dragon, with the lookup
raising. -/
theorem C10_swallowed_lookup_failure_creates_duplicate_witness :
    (create_location_entry true
        { records := [{ id := "page-0", title := "Golden Dragon" }], next_id := 1 }
        { name_of_place := "Golden Dragon" }).2.duplicate = false ∧
    (create_location_entry true
        { records := [{ id := "page-0", title := "Golden Dragon" }], next_id := 1 }
        { name_of_place := "Golden Dragon" }).1.records
      = [{ id := "page-0", title := "Golden Dragon" }]
        ++ [{ id := "page-1", title := "Golden Dragon" }] ∧
    2 ≤ ((create_location_entry true
          { records := [{ id := "page-0", title := "Golden Dragon" }], next_id := 1 }
          { name_of_place := "Golden Dragon" }).1.records.filter
            (fun r => r.title = "Golden Dragon")).length :=
  C10_swallowed_lookup_failure_creates_duplicate
    { records := [{ id := "page-0", title := "Golden Dragon" }], next_id := 1 }
    { name_of_place := "Golden Dragon" } "Golden Dragon" rfl (by decide)
    { id := "page-0", title := "Golden Dragon" } (by decide) rfl

end Wandr
